import Mathlib

/-!
# check_prometheus_scraper

A shallow embedding of `check_prometheus_scraper/main.go` (the Icinga check
that asks a Prometheus server about one scrape target) and the properties of
it that the specification states.

Conventions of the embedding

* Go `int` values are `Int`; no arithmetic is done on them in this program.
* A Go `string` is a `String` (byte strings that are not UTF-8 are outside
  the embedding); `len(s)` is `s.utf8ByteSize`, and `%s` inserts the string
  as it is.
* A Go `map[string]string` is an association list; the nil map and the empty
  map are both `[]` (the program only takes `len` of it and ranges over it).
* A Go `float64` is `GoFloat64`: NaN, the two infinities, or a signed dyadic
  number (every finite `float64` is one); comparisons follow IEEE 754 (every
  comparison with NaN is false).
* What the standard library and the network do is not code of this
  repository.  `strconv.Atoi`, `strconv.ParseFloat(·, 32)` and the `%f` verbs
  of `fmt` are the fields of a `Lib` value that `main` receives, and the
  outcome of the HTTP exchange of each call is given by a `Transport` value.
  Theorems quantify over all of them; a reference model `goLib` of the
  library on plain decimal notation is used to evaluate concrete runs.
* Standard output is the string written to it; the result of a run records
  the calls made, the output and how the process ended.
-/

namespace CheckPrometheus

/-! ## Constants (main.go 13-22) -/

/-- Exit status `ExitOK`. -/
def ExitOK : Int := 0
/-- Exit status `ExitWarning`. -/
def ExitWarning : Int := 1
/-- Exit status `ExitCritical`. -/
def ExitCritical : Int := 2
/-- Query type `QueryCheck`. -/
def QueryCheck : Int := 1
/-- Query type `QueryDuration`. -/
def QueryDuration : Int := 2
/-- Query type `QuerySamples`. -/
def QuerySamples : Int := 3

/-! ## float64 -/

/-- A Go `float64` value: NaN, an infinity, or the finite number
`(-1)^neg * m * 2^e` (negative zero is `fin true 0 e`). -/
inductive GoFloat64 where
  | nan
  | inf (neg : Bool)
  | fin (neg : Bool) (m : Nat) (e : Int)
  deriving DecidableEq, Repr

namespace GoFloat64

/-- The finite value `(-1)^neg * m * 2^e` as an integer multiple of `2^e0`,
for `e0 ≤ e`. -/
def scaled (neg : Bool) (m : Nat) (e e0 : Int) : Int :=
  (if neg then -1 else 1) * ((m * 2 ^ (e - e0).toNat : Nat) : Int)

/-- Go `a < b` on `float64`. -/
def lt : GoFloat64 → GoFloat64 → Bool
  | nan, _ => false
  | _, nan => false
  | inf na, inf nb => na && !nb
  | inf na, fin _ _ _ => na
  | fin _ _ _, inf nb => !nb
  | fin na ma ea, fin nb mb eb =>
    decide (scaled na ma ea (min ea eb) < scaled nb mb eb (min ea eb))

/-- Go `a <= b` on `float64`. -/
def le : GoFloat64 → GoFloat64 → Bool
  | nan, _ => false
  | _, nan => false
  | inf na, inf nb => na || !nb
  | inf na, fin _ _ _ => na
  | fin _ _ _, inf nb => !nb
  | fin na ma ea, fin nb mb eb =>
    decide (scaled na ma ea (min ea eb) ≤ scaled nb mb eb (min ea eb))

/-- Go `a > b` on `float64`. -/
def gt (a b : GoFloat64) : Bool := lt b a

/-- The value is NaN. -/
def isNaN : GoFloat64 → Bool
  | nan => true
  | _ => false

/-- The float64 of a natural number that is exactly representable. -/
def ofNat (n : Nat) : GoFloat64 := fin false n 0

end GoFloat64

/-! ## Data model (main.go 24-47) -/

/-- The struct `PrometheusRequest`. -/
structure PrometheusRequest where
  URL : String
  Instance : String
  Tags : String
  Query : List (String × String)
  TimeoutWarning : GoFloat64
  TimeoutCritical : GoFloat64
  deriving DecidableEq, Repr

/-- A value that `encoding/json` stored in an `interface{}`, as far as the
`%v` verb is concerned: a JSON string prints as its text; any other value
(number, boolean, null, array, object) is carried with the text `%v` prints
for it. -/
inductive JsonValue where
  | str (s : String)
  | other (rendered : String)
  deriving DecidableEq, Repr

/-- The result of `fmt.Sprintf("%v", v)`. -/
def JsonValue.sprint : JsonValue → String
  | .str s => s
  | .other rendered => rendered

/-- The anonymous struct of `PrometheusApiResponse.Data.Result[i].Metric`. -/
structure Metric where
  Name : String
  Instance : String
  Job : String
  Role : String
  deriving DecidableEq, Repr

/-- The anonymous struct of one entry of `PrometheusApiResponse.Data.Result`. -/
structure ResultEntry where
  Metric : Metric
  Value : List JsonValue
  deriving DecidableEq, Repr

/-- The anonymous struct `PrometheusApiResponse.Data`. -/
structure ResponseData where
  ResultType : String
  Result : List ResultEntry
  deriving DecidableEq, Repr

/-- The struct `PrometheusApiResponse`. -/
structure PrometheusApiResponse where
  Status : String
  Data : ResponseData
  deriving DecidableEq, Repr

/-! ## PrepareQuery (main.go 49-72) -/

/-- The method `PrepareQuery`, as the value of its receiver `r` when the
method returns.  The receiver is passed by value (`func (r PrometheusRequest)`),
so this is the method's own copy: a caller that goes on with its own `r` does
not see the assignment `r.Query = q`. -/
def PrepareQuery (r : PrometheusRequest) (query : Int) : PrometheusRequest :=
  let q : List (String × String) :=
    if query = QueryCheck then
      if r.Tags.utf8ByteSize = 0 then
        [("query", "up\x7binstance=\"" ++ r.Instance ++ "\"\x7d")]
      else
        [("query", "up\x7binstance=\"" ++ r.Instance ++ "\",\"" ++ r.Tags ++ "\"\x7d")]
    else if query = QueryDuration then
      if r.Tags.utf8ByteSize = 0 then
        [("query", "scrape_duration_seconds\x7binstance=\"" ++ r.Instance ++ "\"\x7d")]
      else
        [("query", "scrape_duration_seconds\x7binstance=\"" ++ r.Instance ++ "\",\""
          ++ r.Tags ++ "\"\x7d")]
    else if query = QuerySamples then
      if r.Tags.utf8ByteSize = 0 then
        [("query", "scrape_samples_scraped\x7binstance=\"" ++ r.Instance ++ "\"\x7d")]
      else
        [("query", "scrape_samples_scraped\x7binstance=\"" ++ r.Instance ++ "\",\""
          ++ r.Tags ++ "\"\x7d")]
    else
      []
  { r with Query := q }

/-- The statement `r.PrepareQuery(query)` as its caller sees it: the method
works on a copy of `r` and returns nothing, so the caller keeps the `r` it
had. -/
def PrepareQuery.call (r : PrometheusRequest) (query : Int) : PrometheusRequest :=
  let _copy := PrepareQuery r query
  r

/-! ## Call (main.go 74-117) -/

/-- The request that `Call` hands to `client.Do`: the method, the URL it was
created with, and the parameters added to the query of that URL (none when
`len(r.Query) == 0`, where `RawQuery` is left alone). -/
structure Request where
  Method : String
  URL : String
  Params : List (String × String)
  deriving DecidableEq, Repr

/-- What `ioutil.ReadAll` and `json.Unmarshal` make of the body of a
response. -/
inductive Body where
  | readError (err : String)
  | parseError (err : String)
  | parsed (p : PrometheusApiResponse)
  deriving DecidableEq, Repr

/-- The outcome of the HTTP exchange of one call: `http.NewRequest` fails,
`client.Do` fails, or a response arrives with its status code, status text
(`resp.Status`, such as `500 Internal Server Error`) and body. -/
inductive Transport where
  | newRequestError (err : String)
  | doError (err : String)
  | response (StatusCode : Int) (Status : String) (body : Body)
  deriving DecidableEq, Repr

/-- How a `Call` ends: it returns `(int, string)`, or the goroutine panics
(index out of range). -/
inductive CallResult where
  | returned (status : Int) (msg : String)
  | panicked
  deriving DecidableEq, Repr

/-- The request built by `Call` (main.go 75-86). -/
def Call.request (r : PrometheusRequest) : Request :=
  { Method := "GET"
    URL := r.URL
    Params := if r.Query.length > 0 then r.Query else [] }

/-- The method `Call`; `net` answers the request. -/
def Call (net : Request → Transport) (r : PrometheusRequest) : CallResult :=
  match net (Call.request r) with
  | .newRequestError err =>
    .returned ExitCritical ("CRITICAL - API request error: " ++ err)
  | .doError err =>
    .returned ExitCritical ("CRITICAL - API request error: " ++ err)
  | .response StatusCode Status body =>
    if StatusCode ≠ 200 then
      .returned ExitCritical ("CRITICAL - API request error:  " ++ Status)
    else
      match body with
      | .readError err =>
        .returned ExitCritical ("CRITICAL - API response read error: " ++ err)
      | .parseError err =>
        .returned ExitCritical ("CRITICAL - API response parse error " ++ err)
      | .parsed p =>
        match p.Data.Result with
        | [] => .returned ExitCritical "CRITICAL - API response error - no data"
        | first :: _ =>
          match first.Value[1]? with
          | none => .panicked
          | some result => .returned ExitOK result.sprint

/-! ## main (main.go 119-189) -/

/-- The standard library functions that `main` calls on numbers: an error is
carried as its `Error()` text. -/
structure Lib where
  /-- The function `strconv.Atoi`. -/
  Atoi : String → Except String Int
  /-- The function `strconv.ParseFloat`, with its `bitSize` argument. -/
  ParseFloat : String → Nat → Except String GoFloat64
  /-- The verb `%.<prec>f` of `fmt` (`%f` is precision 6). -/
  FormatF : Nat → GoFloat64 → String

/-- The parsed command line flags. -/
structure Flags where
  instanceName : String
  tags : String
  timeoutWarning : GoFloat64
  timeoutCritical : GoFloat64
  deriving DecidableEq, Repr

/-- The defaults of the four flags. -/
def Flags.default : Flags :=
  { instanceName := "default"
    tags := ""
    timeoutWarning := .ofNat 5
    timeoutCritical := .ofNat 30 }

/-- How the process ends: `os.Exit(code)`, or a runtime panic. -/
inductive Ending where
  | exit (code : Int)
  | panic
  deriving DecidableEq, Repr

/-- One run of the program: the requests of the calls made, in order, what
was written to standard output, and the end of the process. -/
structure Run where
  calls : List Request
  stdout : String
  ending : Ending
  deriving DecidableEq, Repr

/-- The threshold comparison of main.go 166-172, from the initial
`msg := ""`, `status := ExitOK`: the pair `(msg, status)` after it. -/
def durationCheck (msgDurationFloat : GoFloat64) (r : PrometheusRequest) : String × Int :=
  if msgDurationFloat.gt r.TimeoutCritical then
    ("CRITICAL - ", ExitCritical)
  else if msgDurationFloat.gt r.TimeoutWarning then
    ("WARNING  - ", ExitWarning)
  else
    ("", ExitOK)

/-- The final message of main.go 183-185. -/
def finalMessage (lib : Lib) (msg : String) (msgDurationFloat : GoFloat64)
    (r : PrometheusRequest) (msgSamples : String) : String :=
  let msg := msg ++ ("scraping took " ++ lib.FormatF 1 msgDurationFloat ++ "s")
  let msg := msg ++ ("|duration=" ++ lib.FormatF 6 msgDurationFloat ++ "s;"
    ++ lib.FormatF 0 r.TimeoutWarning ++ ";" ++ lib.FormatF 0 r.TimeoutCritical ++ ";0;")
  let msg := msg ++ (" samples=" ++ msgSamples)
  msg

/-- The request record `r` that `main` fills in from the flags (main.go
129-135); the field `Query` is not set there and so is the nil map. -/
def main.r (flags : Flags) : PrometheusRequest :=
  { URL := "http://127.0.0.1:9090/api/v1/query"
    Instance := flags.instanceName
    Tags := flags.tags
    Query := []
    TimeoutWarning := flags.timeoutWarning
    TimeoutCritical := flags.timeoutCritical }

/-- The function `main`; `net n` answers the request of call number `n`. -/
def main (lib : Lib) (net : Nat → Request → Transport) (flags : Flags) : Run :=
  let r : PrometheusRequest := main.r flags
  -- Check
  let r := PrepareQuery.call r QueryCheck
  let calls := [Call.request r]
  match Call (net 0) r with
  | .panicked => ⟨calls, "", .panic⟩
  | .returned statusCheck msgCheck =>
  if statusCheck > ExitOK then ⟨calls, msgCheck ++ "\n", .exit statusCheck⟩ else
  match lib.Atoi msgCheck with
  | .error err => ⟨calls, "CRITICAL - " ++ err, .exit ExitCritical⟩
  | .ok msgCheckInt =>
  if msgCheckInt = 0 then
    ⟨calls, "CRITICAL - unable to scrape instance " ++ r.Instance, .exit ExitCritical⟩
  else
  -- Duration
  let r := PrepareQuery.call r QueryDuration
  let calls := calls ++ [Call.request r]
  match Call (net 1) r with
  | .panicked => ⟨calls, "", .panic⟩
  | .returned statusDuration msgDuration =>
  if statusDuration > ExitOK then ⟨calls, msgDuration ++ "\n", .exit statusDuration⟩ else
  match lib.ParseFloat msgDuration 32 with
  | .error err => ⟨calls, "CRITICAL - " ++ err, .exit ExitCritical⟩
  | .ok msgDurationFloat =>
  let (msg, status) := durationCheck msgDurationFloat r
  -- Samples
  let r := PrepareQuery.call r QuerySamples
  let calls := calls ++ [Call.request r]
  match Call (net 2) r with
  | .panicked => ⟨calls, "", .panic⟩
  | .returned statusSamples msgSamples =>
  if statusSamples > ExitOK then ⟨calls, msgSamples ++ "\n", .exit statusSamples⟩ else
  -- Final message
  let msg := finalMessage lib msg msgDurationFloat r msgSamples
  ⟨calls, msg ++ "\n", .exit status⟩

/-! ## A reference model of the library

The functions below model `strconv.Atoi`, `strconv.ParseFloat` and the `%f`
verb on the notation a Prometheus server uses for sample values: an optional
sign, decimal digits with an optional fraction and an optional decimal
exponent, and the words `NaN`, `Inf`, `Infinity`.  Hexadecimal notation and
digit-separating underscores are not modelled.  Error texts are the ones Go
prints for strings that `strconv.Quote` leaves as they are.  The reference
model only serves to evaluate concrete runs. -/

namespace GoLib

/-- The value of a string of decimal digits after the value `acc` of the
digits before it; `none` when a character is not a digit. -/
def digitsValue : List Char → Nat → Option Nat
  | [], acc => some acc
  | c :: cs, acc =>
    if c.isDigit then digitsValue cs (acc * 10 + (c.toNat - 48)) else none

/-- The value of a non-empty string of decimal digits. -/
def number (cs : List Char) : Option Nat :=
  if cs.isEmpty then none else digitsValue cs 0

/-- The text of a `*strconv.NumError`. -/
def numError (fn s err : String) : String :=
  "strconv." ++ fn ++ ": parsing \"" ++ s ++ "\": " ++ err

/-- The magnitude and sign of a signed decimal integer. -/
def signedNumber (cs : List Char) : Option (Bool × Nat) :=
  match cs with
  | '-' :: rest => (number rest).map (fun n => (true, n))
  | '+' :: rest => (number rest).map (fun n => (false, n))
  | _ => (number cs).map (fun n => (false, n))

/-- The function `strconv.Atoi` with a 64-bit `int`. -/
def Atoi (s : String) : Except String Int :=
  match signedNumber s.toList with
  | none => .error (numError "Atoi" s "invalid syntax")
  | some (true, n) =>
    if n ≤ 2 ^ 63 then .ok (-(n : Int)) else .error (numError "Atoi" s "value out of range")
  | some (false, n) =>
    if n < 2 ^ 63 then .ok (n : Int) else .error (numError "Atoi" s "value out of range")

/-- The integer part of the binary logarithm of `n`, by halving (`fuel`
bounds the number of halvings). -/
def log2Aux : Nat → Nat → Nat
  | 0, _ => 0
  | fuel + 1, n => if n < 2 then 0 else log2Aux fuel (n / 2) + 1

/-- The integer part of the binary logarithm of `n` (0 for 0). -/
def log2 (n : Nat) : Nat := log2Aux n n

/-- The integer nearest to `num / den`, a tie going to the even one. -/
def roundHalfEven (num den : Nat) : Nat :=
  let q := num / den
  let rem := num % den
  if 2 * rem > den ∨ (2 * rem = den ∧ q % 2 = 1) then q + 1 else q

/-- The binary floating-point number with `p` significant bits and least
normal exponent `emin` nearest to `num / den` (a tie going to the even
significand), as significand and exponent, for `num` and `den` positive. -/
def roundBinary (p : Nat) (emin : Int) (num den : Nat) : Nat × Int :=
  let e0 : Int := (log2 num : Int) - (log2 den : Int)
  let ge : Bool := if 0 ≤ e0 then decide (den * 2 ^ e0.toNat ≤ num)
    else decide (den ≤ num * 2 ^ (-e0).toNat)
  let e : Int := if ge then e0 else e0 - 1
  let qe : Int := max (e - ((p : Int) - 1)) (emin - ((p : Int) - 1))
  let mant : Nat := if 0 ≤ qe then roundHalfEven num (den * 2 ^ qe.toNat)
    else roundHalfEven (num * 2 ^ (-qe).toNat) den
  (mant, qe)

/-- The characters of a mantissa split at the decimal point: the digits before
it and the digits after it. -/
def splitPoint (cs : List Char) : List Char × List Char :=
  (cs.takeWhile (fun c => c != '.'), (cs.dropWhile (fun c => c != '.')).drop 1)

/-- The digits and the decimal exponent of an unsigned decimal number
`digits[.digits][e[+-]digits]` with at least one digit in the mantissa. -/
def decimal (cs : List Char) : Option (Nat × Int) :=
  let mant := cs.takeWhile (fun c => c != 'e' && c != 'E')
  let rest := cs.dropWhile (fun c => c != 'e' && c != 'E')
  let (ip, fp) := splitPoint mant
  if (ip ++ fp).isEmpty then none else
  match digitsValue (ip ++ fp) 0 with
  | none => none
  | some n =>
    match rest with
    | [] => some (n, -(fp.length : Int))
    | _ :: ex =>
      match signedNumber ex with
      | none => none
      | some (true, x) => some (n, -(x : Int) - (fp.length : Int))
      | some (false, x) => some (n, (x : Int) - (fp.length : Int))

/-- The float with `p` significant bits and exponent range `emin .. emax`
nearest to `(-1)^neg * n * 10^x`; an error when it is out of range. -/
def nearest (s : String) (p : Nat) (emin emax : Int) (neg : Bool) (n : Nat) (x : Int) :
    Except String GoFloat64 :=
  if n = 0 then .ok (.fin neg 0 0) else
  let (mant, qe) :=
    if 0 ≤ x then roundBinary p emin (n * 10 ^ x.toNat) 1
    else roundBinary p emin n (10 ^ (-x).toNat)
  if mant = 0 then .ok (.fin neg 0 0)
  else if qe + (log2 mant : Int) > emax then
    .error (numError "ParseFloat" s "value out of range")
  else .ok (.fin neg mant qe)

/-- The lower-case form of an ASCII string. -/
def lower (cs : List Char) : List Char := cs.map Char.toLower

/-- The function `strconv.ParseFloat` for `bitSize` 32 and 64 (any other
`bitSize` counts as 64). -/
def ParseFloat (s : String) (bitSize : Nat) : Except String GoFloat64 :=
  let cs := s.toList
  let (neg, signed, body) :=
    match cs with
    | '-' :: rest => (true, true, rest)
    | '+' :: rest => (false, true, rest)
    | _ => (false, false, cs)
  if lower body = "inf".toList ∨ lower body = "infinity".toList then .ok (.inf neg)
  else if lower body = "nan".toList ∧ signed = false then .ok .nan
  else
    match decimal body with
    | none => .error (numError "ParseFloat" s "invalid syntax")
    | some (n, x) =>
      if bitSize = 32 then nearest s 24 (-126) 127 neg n x
      else nearest s 53 (-1022) 1023 neg n x

/-- The decimal digits of `n`, at least `width` of them (zeros in front). -/
def paddedDigits (width n : Nat) : List Char :=
  let ds := Nat.toDigits 10 n
  List.replicate (width - ds.length) '0' ++ ds

/-- The verb `%.<prec>f` on a `float64`. -/
def FormatF (prec : Nat) : GoFloat64 → String
  | .nan => "NaN"
  | .inf false => "+Inf"
  | .inf true => "-Inf"
  | .fin neg m e =>
    let q : Nat :=
      if 0 ≤ e then m * 2 ^ e.toNat * 10 ^ prec
      else roundHalfEven (m * 10 ^ prec) (2 ^ (-e).toNat)
    let ds := paddedDigits (prec + 1) q
    let ip := ds.take (ds.length - prec)
    let fp := ds.drop (ds.length - prec)
    String.mk ((if neg then ['-'] else []) ++ ip ++ (if prec = 0 then [] else '.' :: fp))

end GoLib

/-- The reference model of the library. -/
def goLib : Lib :=
  { Atoi := GoLib.Atoi
    ParseFloat := GoLib.ParseFloat
    FormatF := GoLib.FormatF }

/-! ## Example inputs -/

/-- A 200 response in the shape a Prometheus server gives to an instant
query: one result entry whose value array is a timestamp and the sample value
`v` as a string. -/
def sampleResponse (v : String) : Transport :=
  .response 200 "200 OK"
    (.parsed
      { Status := "success"
        Data :=
          { ResultType := "vector"
            Result :=
              [{ Metric := { Name := "", Instance := "web1", Job := "node", Role := "" }
                 Value := [.other "1.435781451781e+09", .str v] }] } })

/-- A 200 response with one result entry whose value array is `value`. -/
def valueResponse (value : List JsonValue) : Transport :=
  .response 200 "200 OK"
    (.parsed
      { Status := "success"
        Data :=
          { ResultType := "vector"
            Result :=
              [{ Metric := { Name := "", Instance := "web1", Job := "node", Role := "" }
                 Value := value }] } })

/-- A 200 response with an empty result array. -/
def emptyResponse : Transport :=
  .response 200 "200 OK"
    (.parsed { Status := "success", Data := { ResultType := "vector", Result := [] } })

/-- A response with HTTP status 500. -/
def errorResponse : Transport :=
  .response 500 "500 Internal Server Error" (.readError "")

/-- The network that answers the first, second and third call of a run with
`a`, `b` and `c`. -/
def answers (a b c : Transport) : Nat → Request → Transport :=
  fun n _ => if n = 0 then a else if n = 1 then b else c

/-- The flags `--instance web1` with the other three at their defaults. -/
def web1 : Flags := { Flags.default with instanceName := "web1" }

/-! ## Properties -/

/-- Go `len(s) == 0` holds exactly for the empty string. -/
theorem utf8ByteSize_eq_zero_iff (s : String) : s.utf8ByteSize = 0 ↔ s = "" := by
  cases s with
  | mk l =>
    cases l with
    | nil => simp [String.utf8ByteSize, String.utf8ByteSize.go]
    | cons c cs =>
      have := Char.utf8Size_pos c
      simp [String.utf8ByteSize, String.utf8ByteSize.go, String.ext_iff]
      omega

/-- C2: for each of the three query kinds, the query string that
`PrepareQuery` builds is `m{instance="i"}` when the tags are empty and
`m{instance="i","t"}` when they are not, with `m` the metric of the kind. -/
theorem PrepareQuery_query_string (r : PrometheusRequest) :
    (PrepareQuery r QueryCheck).Query =
        [("query", if r.Tags = "" then "up" ++ "\x7binstance=\"" ++ r.Instance ++ "\"\x7d"
          else "up" ++ "\x7binstance=\"" ++ r.Instance ++ "\",\"" ++ r.Tags ++ "\"\x7d")]
    ∧ (PrepareQuery r QueryDuration).Query =
        [("query", if r.Tags = "" then
            "scrape_duration_seconds" ++ "\x7binstance=\"" ++ r.Instance ++ "\"\x7d"
          else "scrape_duration_seconds" ++ "\x7binstance=\"" ++ r.Instance ++ "\",\""
            ++ r.Tags ++ "\"\x7d")]
    ∧ (PrepareQuery r QuerySamples).Query =
        [("query", if r.Tags = "" then
            "scrape_samples_scraped" ++ "\x7binstance=\"" ++ r.Instance ++ "\"\x7d"
          else "scrape_samples_scraped" ++ "\x7binstance=\"" ++ r.Instance ++ "\",\""
            ++ r.Tags ++ "\"\x7d")] := by
  by_cases h : r.Tags = "" <;>
    simp [PrepareQuery, QueryCheck, QueryDuration, QuerySamples, utf8ByteSize_eq_zero_iff, h,
      String.append_assoc]

/-- With an empty `Query`, `Call` adds no parameter to the URL. -/
theorem Call_request_of_empty_query (r : PrometheusRequest) (h : r.Query = []) :
    Call.request r = { Method := "GET", URL := r.URL, Params := [] } := by
  simp [Call.request, h]

/-- C10 (as stated, refuted): with instance `web1` and tags `job="node"` the
query built for `QueryCheck` is `up{instance="web1","job="node""}`, not
`up{instance="web1",job="node"}`: a double quote is added on each side of the
fragment. -/
theorem PrepareQuery_tags_not_verbatim :
    (PrepareQuery
        { URL := "http://127.0.0.1:9090/api/v1/query", Instance := "web1",
          Tags := "job=\"node\"", Query := [],
          TimeoutWarning := .ofNat 5, TimeoutCritical := .ofNat 30 } QueryCheck).Query
      = [("query", "up\x7binstance=\"web1\",\"job=\"node\"\"\x7d")]
    ∧ (PrepareQuery
        { URL := "http://127.0.0.1:9090/api/v1/query", Instance := "web1",
          Tags := "job=\"node\"", Query := [],
          TimeoutWarning := .ofNat 5, TimeoutCritical := .ofNat 30 } QueryCheck).Query
      ≠ [("query", "up" ++ "\x7binstance=\"" ++ "web1" ++ "\"," ++ "job=\"node\"" ++ "\x7d")] := by
  decide

/-- C10 (amended): for each query kind and every non-empty tags fragment `t`,
the built query string is `m{instance="i","t"}`: the fragment stands inside
the brace group after a comma, its text unchanged and unescaped, with one
double quote added before it and one after it. -/
theorem PrepareQuery_tags_quoted (r : PrometheusRequest) (h : r.Tags ≠ "") :
    (PrepareQuery r QueryCheck).Query =
        [("query", "up" ++ "\x7binstance=\"" ++ r.Instance ++ "\"," ++
          ("\"" ++ r.Tags ++ "\"") ++ "\x7d")]
    ∧ (PrepareQuery r QueryDuration).Query =
        [("query", "scrape_duration_seconds" ++ "\x7binstance=\"" ++ r.Instance ++ "\"," ++
          ("\"" ++ r.Tags ++ "\"") ++ "\x7d")]
    ∧ (PrepareQuery r QuerySamples).Query =
        [("query", "scrape_samples_scraped" ++ "\x7binstance=\"" ++ r.Instance ++ "\"," ++
          ("\"" ++ r.Tags ++ "\"") ++ "\x7d")] := by
  have e : ∀ x : String, "\",\"" ++ x = "\"," ++ ("\"" ++ x) := by
    intro x
    rw [← String.append_assoc]
    rfl
  simp [PrepareQuery, QueryCheck, QueryDuration, QuerySamples, utf8ByteSize_eq_zero_iff, h,
    String.append_assoc, e]

/-- Witness of `PrepareQuery_tags_quoted`: instance `web1`, tags `job="node"`. -/
theorem PrepareQuery_tags_quoted_witness :
    (PrepareQuery
        { URL := "http://127.0.0.1:9090/api/v1/query", Instance := "web1",
          Tags := "job=\"node\"", Query := [],
          TimeoutWarning := .ofNat 5, TimeoutCritical := .ofNat 30 } QueryCheck).Query =
        [("query", "up" ++ "\x7binstance=\"" ++ "web1" ++ "\"," ++
          ("\"" ++ "job=\"node\"" ++ "\"") ++ "\x7d")]
    ∧ (PrepareQuery
        { URL := "http://127.0.0.1:9090/api/v1/query", Instance := "web1",
          Tags := "job=\"node\"", Query := [],
          TimeoutWarning := .ofNat 5, TimeoutCritical := .ofNat 30 } QueryDuration).Query =
        [("query", "scrape_duration_seconds" ++ "\x7binstance=\"" ++ "web1" ++ "\"," ++
          ("\"" ++ "job=\"node\"" ++ "\"") ++ "\x7d")]
    ∧ (PrepareQuery
        { URL := "http://127.0.0.1:9090/api/v1/query", Instance := "web1",
          Tags := "job=\"node\"", Query := [],
          TimeoutWarning := .ofNat 5, TimeoutCritical := .ofNat 30 } QuerySamples).Query =
        [("query", "scrape_samples_scraped" ++ "\x7binstance=\"" ++ "web1" ++ "\"," ++
          ("\"" ++ "job=\"node\"" ++ "\"") ++ "\x7d")] :=
  PrepareQuery_tags_quoted _ (by decide)

/-- The statement `r.PrepareQuery(query)` leaves the caller's request as it
was, whatever the method built. -/
theorem PrepareQuery_call_eq (r : PrometheusRequest) (query : Int) :
    PrepareQuery.call r query = r := rfl

/-- The request of every call of `main`. -/
theorem Call_request_main_r (flags : Flags) :
    Call.request (main.r flags) =
      { Method := "GET", URL := "http://127.0.0.1:9090/api/v1/query", Params := [] } := rfl

/-- C1 (evaluation of the code): in every run, each call made issues
`GET http://127.0.0.1:9090/api/v1/query` with no URL parameter added: the
`query` entry that `PrepareQuery` builds stays in the method's copy of the
request and never reaches `Call`. -/
theorem main_calls_carry_no_query (lib : Lib) (net : Nat → Request → Transport)
    (flags : Flags) :
    (main lib net flags).calls =
      List.replicate (main lib net flags).calls.length
        { Method := "GET", URL := "http://127.0.0.1:9090/api/v1/query", Params := [] } := by
  cases h1 : Call (net 0) (main.r flags) with
  | panicked => simp [main, PrepareQuery_call_eq, h1, Call_request_main_r]
  | returned s1 m1 =>
    by_cases hs1 : s1 > ExitOK
    · simp [main, PrepareQuery_call_eq, h1, hs1, Call_request_main_r]
    · cases ha : lib.Atoi m1 with
      | error e => simp [main, PrepareQuery_call_eq, h1, hs1, ha, Call_request_main_r]
      | ok k =>
        by_cases hk : k = 0
        · simp [main, PrepareQuery_call_eq, h1, hs1, ha, hk, Call_request_main_r]
        · cases h2 : Call (net 1) (main.r flags) with
          | panicked =>
            simp [main, PrepareQuery_call_eq, h1, hs1, ha, hk, h2, Call_request_main_r]
          | returned s2 m2 =>
            by_cases hs2 : s2 > ExitOK
            · simp [main, PrepareQuery_call_eq, h1, hs1, ha, hk, h2, hs2, Call_request_main_r]
            · cases hp : lib.ParseFloat m2 32 with
              | error e =>
                simp [main, PrepareQuery_call_eq, h1, hs1, ha, hk, h2, hs2, hp,
                  Call_request_main_r]
              | ok d =>
                cases h3 : Call (net 2) (main.r flags) with
                | panicked =>
                  simp [main, PrepareQuery_call_eq, h1, hs1, ha, hk, h2, hs2, hp, h3,
                    Call_request_main_r]
                | returned s3 m3 =>
                  by_cases hs3 : s3 > ExitOK
                  · simp [main, PrepareQuery_call_eq, h1, hs1, ha, hk, h2, hs2, hp, h3, hs3,
                      Call_request_main_r]
                  · simp [main, PrepareQuery_call_eq, h1, hs1, ha, hk, h2, hs2, hp, h3, hs3,
                      Call_request_main_r]

/-! ### The outcomes of `main`, one lemma for each way through it -/

theorem main_panic1 (lib : Lib) (net : Nat → Request → Transport) (flags : Flags)
    (h1 : Call (net 0) (main.r flags) = .panicked) :
    main lib net flags = ⟨[Call.request (main.r flags)], "", .panic⟩ := by
  simp [main, PrepareQuery_call_eq, h1]

theorem main_fail1 (lib : Lib) (net : Nat → Request → Transport) (flags : Flags)
    (s1 : Int) (m1 : String)
    (h1 : Call (net 0) (main.r flags) = .returned s1 m1) (hs1 : s1 > ExitOK) :
    main lib net flags = ⟨[Call.request (main.r flags)], m1 ++ "\n", .exit s1⟩ := by
  simp [main, PrepareQuery_call_eq, h1, hs1]

theorem main_atoi_error (lib : Lib) (net : Nat → Request → Transport) (flags : Flags)
    (s1 : Int) (m1 err : String)
    (h1 : Call (net 0) (main.r flags) = .returned s1 m1) (hs1 : ¬ s1 > ExitOK)
    (ha : lib.Atoi m1 = .error err) :
    main lib net flags =
      ⟨[Call.request (main.r flags)], "CRITICAL - " ++ err, .exit ExitCritical⟩ := by
  simp [main, PrepareQuery_call_eq, h1, hs1, ha]

theorem main_zero (lib : Lib) (net : Nat → Request → Transport) (flags : Flags)
    (s1 : Int) (m1 : String)
    (h1 : Call (net 0) (main.r flags) = .returned s1 m1) (hs1 : ¬ s1 > ExitOK)
    (ha : lib.Atoi m1 = .ok 0) :
    main lib net flags =
      ⟨[Call.request (main.r flags)],
        "CRITICAL - unable to scrape instance " ++ flags.instanceName, .exit ExitCritical⟩ := by
  have hi : (main.r flags).Instance = flags.instanceName := rfl
  simp [main, PrepareQuery_call_eq, h1, hs1, ha, hi]

theorem main_panic2 (lib : Lib) (net : Nat → Request → Transport) (flags : Flags)
    (s1 : Int) (m1 : String) (k : Int)
    (h1 : Call (net 0) (main.r flags) = .returned s1 m1) (hs1 : ¬ s1 > ExitOK)
    (ha : lib.Atoi m1 = .ok k) (hk : k ≠ 0)
    (h2 : Call (net 1) (main.r flags) = .panicked) :
    main lib net flags =
      ⟨[Call.request (main.r flags), Call.request (main.r flags)], "", .panic⟩ := by
  simp [main, PrepareQuery_call_eq, h1, hs1, ha, hk, h2]

theorem main_fail2 (lib : Lib) (net : Nat → Request → Transport) (flags : Flags)
    (s1 : Int) (m1 : String) (k : Int) (s2 : Int) (m2 : String)
    (h1 : Call (net 0) (main.r flags) = .returned s1 m1) (hs1 : ¬ s1 > ExitOK)
    (ha : lib.Atoi m1 = .ok k) (hk : k ≠ 0)
    (h2 : Call (net 1) (main.r flags) = .returned s2 m2) (hs2 : s2 > ExitOK) :
    main lib net flags =
      ⟨[Call.request (main.r flags), Call.request (main.r flags)], m2 ++ "\n", .exit s2⟩ := by
  simp [main, PrepareQuery_call_eq, h1, hs1, ha, hk, h2, hs2]

theorem main_parse_error (lib : Lib) (net : Nat → Request → Transport) (flags : Flags)
    (s1 : Int) (m1 : String) (k : Int) (s2 : Int) (m2 err : String)
    (h1 : Call (net 0) (main.r flags) = .returned s1 m1) (hs1 : ¬ s1 > ExitOK)
    (ha : lib.Atoi m1 = .ok k) (hk : k ≠ 0)
    (h2 : Call (net 1) (main.r flags) = .returned s2 m2) (hs2 : ¬ s2 > ExitOK)
    (hp : lib.ParseFloat m2 32 = .error err) :
    main lib net flags =
      ⟨[Call.request (main.r flags), Call.request (main.r flags)], "CRITICAL - " ++ err,
        .exit ExitCritical⟩ := by
  simp [main, PrepareQuery_call_eq, h1, hs1, ha, hk, h2, hs2, hp]

theorem main_panic3 (lib : Lib) (net : Nat → Request → Transport) (flags : Flags)
    (s1 : Int) (m1 : String) (k : Int) (s2 : Int) (m2 : String) (d : GoFloat64)
    (h1 : Call (net 0) (main.r flags) = .returned s1 m1) (hs1 : ¬ s1 > ExitOK)
    (ha : lib.Atoi m1 = .ok k) (hk : k ≠ 0)
    (h2 : Call (net 1) (main.r flags) = .returned s2 m2) (hs2 : ¬ s2 > ExitOK)
    (hp : lib.ParseFloat m2 32 = .ok d)
    (h3 : Call (net 2) (main.r flags) = .panicked) :
    main lib net flags =
      ⟨[Call.request (main.r flags), Call.request (main.r flags),
        Call.request (main.r flags)], "", .panic⟩ := by
  simp [main, PrepareQuery_call_eq, h1, hs1, ha, hk, h2, hs2, hp, h3]

theorem main_fail3 (lib : Lib) (net : Nat → Request → Transport) (flags : Flags)
    (s1 : Int) (m1 : String) (k : Int) (s2 : Int) (m2 : String) (d : GoFloat64)
    (s3 : Int) (m3 : String)
    (h1 : Call (net 0) (main.r flags) = .returned s1 m1) (hs1 : ¬ s1 > ExitOK)
    (ha : lib.Atoi m1 = .ok k) (hk : k ≠ 0)
    (h2 : Call (net 1) (main.r flags) = .returned s2 m2) (hs2 : ¬ s2 > ExitOK)
    (hp : lib.ParseFloat m2 32 = .ok d)
    (h3 : Call (net 2) (main.r flags) = .returned s3 m3) (hs3 : s3 > ExitOK) :
    main lib net flags =
      ⟨[Call.request (main.r flags), Call.request (main.r flags),
        Call.request (main.r flags)], m3 ++ "\n", .exit s3⟩ := by
  simp [main, PrepareQuery_call_eq, h1, hs1, ha, hk, h2, hs2, hp, h3, hs3]

theorem main_done (lib : Lib) (net : Nat → Request → Transport) (flags : Flags)
    (s1 : Int) (m1 : String) (k : Int) (s2 : Int) (m2 : String) (d : GoFloat64)
    (s3 : Int) (m3 : String)
    (h1 : Call (net 0) (main.r flags) = .returned s1 m1) (hs1 : ¬ s1 > ExitOK)
    (ha : lib.Atoi m1 = .ok k) (hk : k ≠ 0)
    (h2 : Call (net 1) (main.r flags) = .returned s2 m2) (hs2 : ¬ s2 > ExitOK)
    (hp : lib.ParseFloat m2 32 = .ok d)
    (h3 : Call (net 2) (main.r flags) = .returned s3 m3) (hs3 : ¬ s3 > ExitOK) :
    main lib net flags =
      ⟨[Call.request (main.r flags), Call.request (main.r flags),
        Call.request (main.r flags)],
        finalMessage lib (durationCheck d (main.r flags)).1 d (main.r flags) m3 ++ "\n",
        .exit (durationCheck d (main.r flags)).2⟩ := by
  simp [main, PrepareQuery_call_eq, h1, hs1, ha, hk, h2, hs2, hp, h3, hs3]

/-- The statuses that `Call` returns are `ExitOK` and `ExitCritical`. -/
theorem Call_status (net : Request → Transport) (r : PrometheusRequest) (s : Int)
    (m : String) (h : Call net r = .returned s m) : s = ExitOK ∨ s = ExitCritical := by
  unfold Call at h
  split at h
  · simp at h; exact Or.inr h.1.symm
  · simp at h; exact Or.inr h.1.symm
  · split at h
    · simp at h; exact Or.inr h.1.symm
    · split at h
      · simp at h; exact Or.inr h.1.symm
      · simp at h; exact Or.inr h.1.symm
      · split at h
        · simp at h; exact Or.inr h.1.symm
        · split at h
          · simp at h
          · simp at h; exact Or.inl h.1.symm

/-- On a 200 response with a parsed body and a first result entry, `Call`
returns `ExitOK` and the text of element 1 of the value array when there is
one, and panics when there is none. -/
theorem Call_of_value (net : Request → Transport) (r : PrometheusRequest) (Status : String)
    (p : PrometheusApiResponse) (first : ResultEntry) (rest : List ResultEntry)
    (hnet : net (Call.request r) = .response 200 Status (.parsed p))
    (hp : p.Data.Result = first :: rest) :
    Call net r =
      match first.Value[1]? with
      | none => .panicked
      | some result => .returned ExitOK result.sprint := by
  simp [Call, hnet, hp]

/-- C6 (evaluation of the code): a 200 response with a parsed body and a
non-empty result set whose first entry has a value array of length 0 or 1
makes `Call` panic at `Value[1]`; it returns nothing. -/
theorem Call_short_value_panics :
    Call (fun _ => valueResponse []) (main.r web1) = .panicked
    ∧ Call (fun _ => valueResponse [.other "1.435781451781e+09"]) (main.r web1) = .panicked := by
  decide

/-- C9 (as stated, refuted): on a 200 response with an empty result array the
message that `Call` returns is not `API response error - no data`. -/
theorem Call_no_data_message_differs :
    Call (fun _ => emptyResponse) (main.r web1)
      ≠ .returned ExitCritical "API response error - no data" := by
  decide

/-- C9 (amended): for every response with HTTP status 200 whose body parses
and whose result array is empty, `Call` returns status `ExitCritical` with the
message `CRITICAL - API response error - no data`. -/
theorem Call_no_data (net : Request → Transport) (r : PrometheusRequest) (Status : String)
    (p : PrometheusApiResponse)
    (hnet : net (Call.request r) = .response 200 Status (.parsed p))
    (hp : p.Data.Result = []) :
    Call net r = .returned ExitCritical "CRITICAL - API response error - no data" := by
  simp [Call, hnet, hp]

/-- Witness of `Call_no_data`: the empty 200 response. -/
theorem Call_no_data_witness :
    Call (fun _ => emptyResponse) (main.r web1)
      = .returned ExitCritical "CRITICAL - API response error - no data" :=
  Call_no_data (fun _ => emptyResponse) (main.r web1) "200 OK"
    { Status := "success", Data := { ResultType := "vector", Result := [] } } rfl rfl

/-- A status that `Call` returns and that is not `ExitOK` is `ExitCritical`,
and `main` takes it for a failure. -/
theorem Call_status_not_ok (net : Request → Transport) (r : PrometheusRequest) (s : Int)
    (m : String) (h : Call net r = .returned s m) (hs : s ≠ ExitOK) :
    s = ExitCritical ∧ s > ExitOK := by
  rcases Call_status net r s m h with h0 | h2
  · exact absurd h0 hs
  · exact ⟨h2, by simp [h2, ExitCritical, ExitOK]⟩

/-- A run makes at most three calls. -/
theorem main_calls_length_le (lib : Lib) (net : Nat → Request → Transport) (flags : Flags) :
    (main lib net flags).calls.length ≤ 3 := by
  cases h1 : Call (net 0) (main.r flags) with
  | panicked => simp [main_panic1 lib net flags h1]
  | returned s1 m1 =>
    by_cases hs1 : s1 > ExitOK
    · simp [main_fail1 lib net flags s1 m1 h1 hs1]
    · cases ha : lib.Atoi m1 with
      | error e => simp [main_atoi_error lib net flags s1 m1 e h1 hs1 ha]
      | ok k =>
        by_cases hk : k = 0
        · subst hk
          simp [main_zero lib net flags s1 m1 h1 hs1 ha]
        · cases h2 : Call (net 1) (main.r flags) with
          | panicked => simp [main_panic2 lib net flags s1 m1 k h1 hs1 ha hk h2]
          | returned s2 m2 =>
            by_cases hs2 : s2 > ExitOK
            · simp [main_fail2 lib net flags s1 m1 k s2 m2 h1 hs1 ha hk h2 hs2]
            · cases hp : lib.ParseFloat m2 32 with
              | error e =>
                simp [main_parse_error lib net flags s1 m1 k s2 m2 e h1 hs1 ha hk h2 hs2 hp]
              | ok d =>
                cases h3 : Call (net 2) (main.r flags) with
                | panicked =>
                  simp [main_panic3 lib net flags s1 m1 k s2 m2 d h1 hs1 ha hk h2 hs2 hp h3]
                | returned s3 m3 =>
                  by_cases hs3 : s3 > ExitOK
                  · simp [main_fail3 lib net flags s1 m1 k s2 m2 d s3 m3 h1 hs1 ha hk h2 hs2
                      hp h3 hs3]
                  · simp [main_done lib net flags s1 m1 k s2 m2 d s3 m3 h1 hs1 ha hk h2 hs2
                      hp h3 hs3]

/-- Once the liveness check has passed, the duration call is made. -/
theorem main_calls_length_ge_two (lib : Lib) (net : Nat → Request → Transport)
    (flags : Flags) (s1 : Int) (m1 : String) (k : Int)
    (h1 : Call (net 0) (main.r flags) = .returned s1 m1) (hs1 : ¬ s1 > ExitOK)
    (ha : lib.Atoi m1 = .ok k) (hk : k ≠ 0) :
    2 ≤ (main lib net flags).calls.length := by
  cases h2 : Call (net 1) (main.r flags) with
  | panicked => simp [main_panic2 lib net flags s1 m1 k h1 hs1 ha hk h2]
  | returned s2 m2 =>
    by_cases hs2 : s2 > ExitOK
    · simp [main_fail2 lib net flags s1 m1 k s2 m2 h1 hs1 ha hk h2 hs2]
    · cases hp : lib.ParseFloat m2 32 with
      | error e =>
        simp [main_parse_error lib net flags s1 m1 k s2 m2 e h1 hs1 ha hk h2 hs2 hp]
      | ok d =>
        cases h3 : Call (net 2) (main.r flags) with
        | panicked =>
          simp [main_panic3 lib net flags s1 m1 k s2 m2 d h1 hs1 ha hk h2 hs2 hp h3]
        | returned s3 m3 =>
          by_cases hs3 : s3 > ExitOK
          · simp [main_fail3 lib net flags s1 m1 k s2 m2 d s3 m3 h1 hs1 ha hk h2 hs2
              hp h3 hs3]
          · simp [main_done lib net flags s1 m1 k s2 m2 d s3 m3 h1 hs1 ha hk h2 hs2
              hp h3 hs3]

/-- `ExitOK` is not above `ExitOK`. -/
theorem not_ExitOK_gt : ¬ ExitOK > ExitOK := by simp

/-- C5: when the checks before call `n` (1, 2 or 3) have passed and call `n`
returns a status other than `ExitOK`, the run prints the message of that call
as one line, exits with that status, which is `ExitCritical`, and has made
exactly `n` calls; a run never makes more than three calls; and the message
of a call answered with a status code other than 200 ends with the status
text of the response. -/
theorem main_failing_call (lib : Lib) (net : Nat → Request → Transport) (flags : Flags) :
    (∀ s m, Call (net 0) (main.r flags) = .returned s m → s ≠ ExitOK →
      main lib net flags = ⟨[Call.request (main.r flags)], m ++ "\n", .exit s⟩
        ∧ s = ExitCritical)
    ∧ (∀ v1 k s m, Call (net 0) (main.r flags) = .returned ExitOK v1 →
        lib.Atoi v1 = .ok k → k ≠ 0 →
        Call (net 1) (main.r flags) = .returned s m → s ≠ ExitOK →
        main lib net flags =
            ⟨[Call.request (main.r flags), Call.request (main.r flags)], m ++ "\n", .exit s⟩
          ∧ s = ExitCritical)
    ∧ (∀ v1 k v2 d s m, Call (net 0) (main.r flags) = .returned ExitOK v1 →
        lib.Atoi v1 = .ok k → k ≠ 0 →
        Call (net 1) (main.r flags) = .returned ExitOK v2 →
        lib.ParseFloat v2 32 = .ok d →
        Call (net 2) (main.r flags) = .returned s m → s ≠ ExitOK →
        main lib net flags =
            ⟨[Call.request (main.r flags), Call.request (main.r flags),
              Call.request (main.r flags)], m ++ "\n", .exit s⟩
          ∧ s = ExitCritical)
    ∧ (main lib net flags).calls.length ≤ 3
    ∧ (∀ n StatusCode Status body,
        net n (Call.request (main.r flags)) = .response StatusCode Status body →
        StatusCode ≠ 200 →
        Call (net n) (main.r flags) =
          .returned ExitCritical ("CRITICAL - API request error:  " ++ Status)) := by
  refine ⟨?_, ?_, ?_, main_calls_length_le lib net flags, ?_⟩
  · intro s m h1 hs
    have hc := Call_status_not_ok _ _ s m h1 hs
    exact ⟨main_fail1 lib net flags s m h1 hc.2, hc.1⟩
  · intro v1 k s m h1 ha hk h2 hs
    have hc := Call_status_not_ok _ _ s m h2 hs
    exact ⟨main_fail2 lib net flags ExitOK v1 k s m h1 not_ExitOK_gt ha hk h2 hc.2, hc.1⟩
  · intro v1 k v2 d s m h1 ha hk h2 hp h3 hs
    have hc := Call_status_not_ok _ _ s m h3 hs
    exact ⟨main_fail3 lib net flags ExitOK v1 k ExitOK v2 d s m h1 not_ExitOK_gt ha hk h2
      not_ExitOK_gt hp h3 hc.2, hc.1⟩
  · intro n StatusCode Status body hnet hcode
    simp [Call, hnet, hcode]

/-- Witness of `main_failing_call`: a backend that answers the first, the
second or the third call with HTTP 500, after correct answers to the calls
before it. -/
theorem main_failing_call_witness :
    (main goLib (answers errorResponse errorResponse errorResponse) web1 =
        ⟨[Call.request (main.r web1)],
          "CRITICAL - API request error:  500 Internal Server Error" ++ "\n", .exit 2⟩
      ∧ (2 : Int) = ExitCritical)
    ∧ (main goLib (answers (sampleResponse "1") errorResponse errorResponse) web1 =
        ⟨[Call.request (main.r web1), Call.request (main.r web1)],
          "CRITICAL - API request error:  500 Internal Server Error" ++ "\n", .exit 2⟩
      ∧ (2 : Int) = ExitCritical)
    ∧ (main goLib (answers (sampleResponse "1") (sampleResponse "12.3") errorResponse) web1 =
        ⟨[Call.request (main.r web1), Call.request (main.r web1),
          Call.request (main.r web1)],
          "CRITICAL - API request error:  500 Internal Server Error" ++ "\n", .exit 2⟩
      ∧ (2 : Int) = ExitCritical) :=
  ⟨(main_failing_call goLib (answers errorResponse errorResponse errorResponse) web1).1
      2 "CRITICAL - API request error:  500 Internal Server Error" rfl (by decide),
    (main_failing_call goLib (answers (sampleResponse "1") errorResponse errorResponse)
      web1).2.1 "1" 1 2 "CRITICAL - API request error:  500 Internal Server Error"
      rfl rfl (by decide) rfl (by decide),
    (main_failing_call goLib
      (answers (sampleResponse "1") (sampleResponse "12.3") errorResponse) web1).2.2.1
      "1" 1 "12.3" (.fin false 12897485 (-20)) 2
      "CRITICAL - API request error:  500 Internal Server Error"
      rfl rfl (by decide) rfl (by rfl) rfl (by decide)⟩

/-- C7: when the liveness call returns `ExitOK` with the value string `v`,
the run goes on to the duration call exactly when `strconv.Atoi` accepts `v`
with a result other than 0; when the result is 0 the run ends after that one
call with exit code `ExitCritical` and the output
`CRITICAL - unable to scrape instance ` followed by the instance; when `v` is
not accepted the run ends after that one call with exit code `ExitCritical`. -/
theorem main_liveness_gate (lib : Lib) (net : Nat → Request → Transport) (flags : Flags)
    (v : String) (h : Call (net 0) (main.r flags) = .returned ExitOK v) :
    (2 ≤ (main lib net flags).calls.length ↔ ∃ k, lib.Atoi v = .ok k ∧ k ≠ 0)
    ∧ (lib.Atoi v = .ok 0 →
        main lib net flags =
          ⟨[Call.request (main.r flags)],
            "CRITICAL - unable to scrape instance " ++ flags.instanceName,
            .exit ExitCritical⟩)
    ∧ (∀ err, lib.Atoi v = .error err →
        main lib net flags =
          ⟨[Call.request (main.r flags)], "CRITICAL - " ++ err, .exit ExitCritical⟩) := by
  refine ⟨⟨?_, ?_⟩, ?_, ?_⟩
  · intro hlen
    cases ha : lib.Atoi v with
    | error e =>
      rw [main_atoi_error lib net flags ExitOK v e h not_ExitOK_gt ha] at hlen
      simp at hlen
    | ok k =>
      by_cases hk : k = 0
      · subst hk
        rw [main_zero lib net flags ExitOK v h not_ExitOK_gt ha] at hlen
        simp at hlen
      · exact ⟨k, rfl, hk⟩
  · rintro ⟨k, ha, hk⟩
    exact main_calls_length_ge_two lib net flags ExitOK v k h not_ExitOK_gt ha hk
  · intro ha
    exact main_zero lib net flags ExitOK v h not_ExitOK_gt ha
  · intro err ha
    exact main_atoi_error lib net flags ExitOK v err h not_ExitOK_gt ha

/-- Witness of `main_liveness_gate`: the liveness value `1` passes and the
liveness value `0` ends the run. -/
theorem main_liveness_gate_witness :
    (2 ≤ (main goLib (answers (sampleResponse "1") errorResponse errorResponse)
        web1).calls.length)
    ∧ main goLib (answers (sampleResponse "0") errorResponse errorResponse) web1 =
        ⟨[Call.request (main.r web1)], "CRITICAL - unable to scrape instance " ++ "web1",
          .exit ExitCritical⟩ :=
  ⟨(main_liveness_gate goLib (answers (sampleResponse "1") errorResponse errorResponse)
      web1 "1" rfl).1.2 ⟨1, rfl, by decide⟩,
    (main_liveness_gate goLib (answers (sampleResponse "0") errorResponse errorResponse)
      web1 "0" rfl).2.1 rfl⟩

/-- No `float64` is greater than itself. -/
theorem GoFloat64.gt_self (a : GoFloat64) : a.gt a = false := by
  cases a with
  | nan => rfl
  | inf neg => cases neg <;> rfl
  | fin neg m e => simp [GoFloat64.gt, GoFloat64.lt]

/-- Between two values that are not NaN, `a <= b` holds exactly when `a > b`
does not. -/
theorem GoFloat64.le_iff_not_gt (a b : GoFloat64) (ha : a.isNaN = false)
    (hb : b.isNaN = false) : a.le b = true ↔ a.gt b = false := by
  cases a with
  | nan => simp [GoFloat64.isNaN] at ha
  | inf na =>
    cases b with
    | nan => simp [GoFloat64.isNaN] at hb
    | inf nb => cases na <;> cases nb <;> simp [GoFloat64.le, GoFloat64.gt, GoFloat64.lt]
    | fin nb mb eb => cases na <;> simp [GoFloat64.le, GoFloat64.gt, GoFloat64.lt]
  | fin na ma ea =>
    cases b with
    | nan => simp [GoFloat64.isNaN] at hb
    | inf nb => cases nb <;> simp [GoFloat64.le, GoFloat64.gt, GoFloat64.lt]
    | fin nb mb eb =>
      simp [GoFloat64.le, GoFloat64.gt, GoFloat64.lt, min_comm eb ea]

/-- With a NaN on either side, `a <= b` is false. -/
theorem GoFloat64.le_nan (a : GoFloat64) : a.le .nan = false := by
  cases a <;> rfl

/-- C3 (as stated, refuted): with duration 10, warning threshold 5 and a
critical threshold that is NaN (`--timeout-critical NaN`), the check yields
WARNING although `d <= c` is false. -/
theorem durationCheck_nan_critical :
    ¬ (durationCheck (.ofNat 10)
          { URL := "", Instance := "web1", Tags := "", Query := [],
            TimeoutWarning := .ofNat 5, TimeoutCritical := .nan }
        = ("WARNING  - ", ExitWarning)
      ↔ (GoFloat64.ofNat 10).le .nan = true ∧ (GoFloat64.ofNat 10).gt (.ofNat 5) = true) := by
  decide

/-- C3 (amended): for every duration `d` and thresholds `w`, `c`, in any
order, the duration check yields `ExitCritical` with `CRITICAL - ` exactly
when `d > c`; `ExitWarning` with `WARNING  - ` exactly when `d > c` is false
and `d > w`; `ExitOK` with the empty text exactly when both are false.  When
`c` is not NaN, `d > c` being false and `d > w` amounts to `d <= c` and
`d > w`.  The comparisons are strict: `d = c` does not give CRITICAL and
`d = w` does not give WARNING. -/
theorem durationCheck_spec (d : GoFloat64) (r : PrometheusRequest) :
    (durationCheck d r = ("CRITICAL - ", ExitCritical) ↔ d.gt r.TimeoutCritical = true)
    ∧ (durationCheck d r = ("WARNING  - ", ExitWarning) ↔
        d.gt r.TimeoutCritical = false ∧ d.gt r.TimeoutWarning = true)
    ∧ (durationCheck d r = ("", ExitOK) ↔
        d.gt r.TimeoutCritical = false ∧ d.gt r.TimeoutWarning = false)
    ∧ (r.TimeoutCritical.isNaN = false →
        (durationCheck d r = ("WARNING  - ", ExitWarning) ↔
          d.le r.TimeoutCritical = true ∧ d.gt r.TimeoutWarning = true))
    ∧ durationCheck r.TimeoutCritical r ≠ ("CRITICAL - ", ExitCritical)
    ∧ durationCheck r.TimeoutWarning r ≠ ("WARNING  - ", ExitWarning) := by
  have hC : durationCheck d r = ("CRITICAL - ", ExitCritical) ↔
      d.gt r.TimeoutCritical = true := by
    unfold durationCheck
    cases d.gt r.TimeoutCritical <;> cases d.gt r.TimeoutWarning <;>
      simp [ExitCritical, ExitWarning, ExitOK]
  have hW : durationCheck d r = ("WARNING  - ", ExitWarning) ↔
      d.gt r.TimeoutCritical = false ∧ d.gt r.TimeoutWarning = true := by
    unfold durationCheck
    cases d.gt r.TimeoutCritical <;> cases d.gt r.TimeoutWarning <;>
      simp [ExitCritical, ExitWarning, ExitOK]
  have hO : durationCheck d r = ("", ExitOK) ↔
      d.gt r.TimeoutCritical = false ∧ d.gt r.TimeoutWarning = false := by
    unfold durationCheck
    cases d.gt r.TimeoutCritical <;> cases d.gt r.TimeoutWarning <;>
      simp [ExitCritical, ExitWarning, ExitOK]
  refine ⟨hC, hW, hO, ?_, ?_, ?_⟩
  · intro hc
    rw [hW]
    by_cases hd : d.isNaN = false
    · rw [GoFloat64.le_iff_not_gt d _ hd hc]
    · have hn : d = .nan := by
        cases d <;> simp [GoFloat64.isNaN] at hd
        rfl
      subst hn
      cases hcr : r.TimeoutCritical <;> cases hwr : r.TimeoutWarning <;>
        simp [GoFloat64.gt, GoFloat64.lt, GoFloat64.le]
  · unfold durationCheck
    rw [GoFloat64.gt_self]
    cases r.TimeoutCritical.gt r.TimeoutWarning <;> simp [ExitCritical, ExitWarning, ExitOK]
  · unfold durationCheck
    rw [GoFloat64.gt_self]
    cases r.TimeoutWarning.gt r.TimeoutCritical <;> simp [ExitCritical, ExitWarning, ExitOK]

/-- Witness of `durationCheck_spec`: with warning threshold 5 and critical
threshold 30, the duration 4.9 (as `ParseFloat` with `bitSize` 32 returns it)
gives OK, 10 gives WARNING and 31 gives CRITICAL. -/
theorem durationCheck_spec_witness :
    durationCheck (.fin false 10276045 (-21)) (main.r web1) = ("", ExitOK)
    ∧ durationCheck (.ofNat 10) (main.r web1) = ("WARNING  - ", ExitWarning)
    ∧ durationCheck (.ofNat 31) (main.r web1) = ("CRITICAL - ", ExitCritical)
    ∧ (durationCheck (.ofNat 10) (main.r web1) = ("WARNING  - ", ExitWarning) ↔
        (GoFloat64.ofNat 10).le (main.r web1).TimeoutCritical = true
          ∧ (GoFloat64.ofNat 10).gt (main.r web1).TimeoutWarning = true) :=
  ⟨(durationCheck_spec (.fin false 10276045 (-21)) (main.r web1)).2.2.1.2
      ⟨by decide, by decide⟩,
    (durationCheck_spec (.ofNat 10) (main.r web1)).2.1.2 ⟨by decide, by decide⟩,
    (durationCheck_spec (.ofNat 31) (main.r web1)).1.2 (by decide),
    (durationCheck_spec (.ofNat 10) (main.r web1)).2.2.2.1 (by decide)⟩

/-- C8: in a run that completes all three checks, with `d` the value that
`strconv.ParseFloat` (`bitSize` 32) returns for the duration the backend
reported, thresholds `w`, `c` and sample string `s`, standard output is the
one line `<p>scraping took <d, 1 decimal>s|duration=<d, 6 decimals>s;<w, 0
decimals>;<c, 0 decimals>;0; samples=<s>`, where `<p>` is the text chosen by
the duration threshold check, and the exit code is the severity of that
check. -/
theorem main_final_line (lib : Lib) (net : Nat → Request → Transport) (flags : Flags)
    (v1 : String) (k : Int) (v2 : String) (d : GoFloat64) (s : String)
    (h1 : Call (net 0) (main.r flags) = .returned ExitOK v1)
    (ha : lib.Atoi v1 = .ok k) (hk : k ≠ 0)
    (h2 : Call (net 1) (main.r flags) = .returned ExitOK v2)
    (hp : lib.ParseFloat v2 32 = .ok d)
    (h3 : Call (net 2) (main.r flags) = .returned ExitOK s) :
    (main lib net flags).stdout =
        (durationCheck d (main.r flags)).1 ++ "scraping took " ++ lib.FormatF 1 d
          ++ "s|duration=" ++ lib.FormatF 6 d ++ "s;" ++ lib.FormatF 0 flags.timeoutWarning
          ++ ";" ++ lib.FormatF 0 flags.timeoutCritical ++ ";0; samples=" ++ s ++ "\n"
    ∧ (main lib net flags).ending = .exit (durationCheck d (main.r flags)).2 := by
  rw [main_done lib net flags ExitOK v1 k ExitOK v2 d ExitOK s h1 not_ExitOK_gt ha hk h2
    not_ExitOK_gt hp h3 not_ExitOK_gt]
  refine ⟨?_, rfl⟩
  have e : "s" ++ "|duration=" = "s|duration=" := by decide
  have e2 : ";0;" ++ " samples=" = ";0; samples=" := by decide
  simp only [finalMessage, main.r, String.append_assoc]
  rw [← String.append_assoc "s" "|duration=", e, ← String.append_assoc ";0;" " samples=", e2]

/-- Witness of `main_final_line`: instance `web1`, no tags, reported duration
`12.3`, samples `150`, thresholds 5 and 30. -/
theorem main_final_line_witness :
    (main goLib (answers (sampleResponse "1") (sampleResponse "12.3") (sampleResponse "150"))
        web1).stdout =
      "WARNING  - scraping took 12.3s|duration=12.300000s;5;30;0; samples=150" ++ "\n"
    ∧ (main goLib (answers (sampleResponse "1") (sampleResponse "12.3") (sampleResponse "150"))
        web1).ending = .exit 1 :=
  have h := main_final_line goLib (answers (sampleResponse "1") (sampleResponse "12.3")
    (sampleResponse "150")) web1 "1" 1 "12.3" (.fin false 12897485 (-20)) "150"
    rfl rfl (by decide) rfl (by rfl) rfl
  ⟨h.1.trans (by decide), h.2.trans (by decide)⟩

/-- A run ends in a panic or with one of the exit codes 0, 1, 2. -/
theorem main_ending (lib : Lib) (net : Nat → Request → Transport) (flags : Flags) :
    (main lib net flags).ending = .panic ∨ (main lib net flags).ending = .exit ExitOK
      ∨ (main lib net flags).ending = .exit ExitWarning
      ∨ (main lib net flags).ending = .exit ExitCritical := by
  have hd : ∀ d : GoFloat64,
      (durationCheck d (main.r flags)).2 = ExitOK
        ∨ (durationCheck d (main.r flags)).2 = ExitWarning
        ∨ (durationCheck d (main.r flags)).2 = ExitCritical := by
    intro d
    unfold durationCheck
    split
    · exact Or.inr (Or.inr rfl)
    · split
      · exact Or.inr (Or.inl rfl)
      · exact Or.inl rfl
  have hcall : ∀ n s m, Call (net n) (main.r flags) = .returned s m → s > ExitOK →
      s = ExitCritical := by
    intro n s m h hs
    rcases Call_status _ _ s m h with h0 | h2
    · rw [h0] at hs
      exact absurd hs not_ExitOK_gt
    · exact h2
  cases h1 : Call (net 0) (main.r flags) with
  | panicked => simp [main_panic1 lib net flags h1]
  | returned s1 m1 =>
    by_cases hs1 : s1 > ExitOK
    · simp [main_fail1 lib net flags s1 m1 h1 hs1, hcall 0 s1 m1 h1 hs1]
    · cases ha : lib.Atoi m1 with
      | error e => simp [main_atoi_error lib net flags s1 m1 e h1 hs1 ha]
      | ok k =>
        by_cases hk : k = 0
        · subst hk
          simp [main_zero lib net flags s1 m1 h1 hs1 ha]
        · cases h2 : Call (net 1) (main.r flags) with
          | panicked => simp [main_panic2 lib net flags s1 m1 k h1 hs1 ha hk h2]
          | returned s2 m2 =>
            by_cases hs2 : s2 > ExitOK
            · simp [main_fail2 lib net flags s1 m1 k s2 m2 h1 hs1 ha hk h2 hs2,
                hcall 1 s2 m2 h2 hs2]
            · cases hp : lib.ParseFloat m2 32 with
              | error e =>
                simp [main_parse_error lib net flags s1 m1 k s2 m2 e h1 hs1 ha hk h2 hs2 hp]
              | ok d =>
                cases h3 : Call (net 2) (main.r flags) with
                | panicked =>
                  simp [main_panic3 lib net flags s1 m1 k s2 m2 d h1 hs1 ha hk h2 hs2 hp h3]
                | returned s3 m3 =>
                  by_cases hs3 : s3 > ExitOK
                  · simp [main_fail3 lib net flags s1 m1 k s2 m2 d s3 m3 h1 hs1 ha hk h2 hs2
                      hp h3 hs3, hcall 2 s3 m3 h3 hs3]
                  · rw [main_done lib net flags s1 m1 k s2 m2 d s3 m3 h1 hs1 ha hk h2 hs2
                      hp h3 hs3]
                    rcases hd d with h | h | h <;> simp [h]

/-- C4 (evaluation of the code): the backend answers the liveness call with
value 1, the duration call with 10 (WARNING against the thresholds 5 and 30)
and the samples call with a result entry whose value array is empty.  The
worst severity met is WARNING, but the run ends in a panic inside the third
`Call`, with nothing printed and no `os.Exit` reached. -/
theorem main_panics_on_short_value :
    main goLib (answers (sampleResponse "1") (sampleResponse "10") (valueResponse [])) web1 =
      ⟨[Call.request (main.r web1), Call.request (main.r web1), Call.request (main.r web1)],
        "", .panic⟩
    ∧ durationCheck (.ofNat 10) (main.r web1) = ("WARNING  - ", ExitWarning) := by
  decide

/-- C8 (as stated, refuted): the backend reports the duration `16777217`;
with one decimal that value is `16777217.0`, but the line printed shows
`16777216.0`, the nearest 32-bit float, because the duration is parsed with
`bitSize` 32. -/
theorem main_line_rounds_duration :
    (main goLib
        (answers (sampleResponse "1") (sampleResponse "16777217") (sampleResponse "150"))
        web1).stdout =
      "CRITICAL - scraping took 16777216.0s|duration=16777216.000000s;5;30;0; samples=150"
        ++ "\n"
    ∧ (main goLib
        (answers (sampleResponse "1") (sampleResponse "16777217") (sampleResponse "150"))
        web1).stdout ≠
      "CRITICAL - " ++ "scraping took " ++ goLib.FormatF 1 (.ofNat 16777217) ++ "s|duration="
        ++ goLib.FormatF 6 (.ofNat 16777217) ++ "s;" ++ goLib.FormatF 0 (.ofNat 5) ++ ";"
        ++ goLib.FormatF 0 (.ofNat 30) ++ ";0; samples=" ++ "150" ++ "\n"
    ∧ goLib.FormatF 1 (.ofNat 16777217) = "16777217.0"
    ∧ goLib.FormatF 6 (.ofNat 16777217) = "16777217.000000" := by
  decide

end CheckPrometheus
